import Mathlib

/-!
Verification of the NoctisPro DICOM receiver
(src/rust/noctis_dicom_receiver/src/main.rs) against its design
specification.  The Rust code is shallowly embedded: paths are lists of
string components, the filesystem is an explicit record of directories
and files threaded through every operation, and each fallible I/O
operation is driven by an explicit oracle recording whether it succeeds.
-/

/-- A filesystem path, as a list of components. -/
abbrev FsPath := List String

/-- The filesystem state visible to the receiver: the set of directories
that exist (as a duplicate-free list) and the files that exist, each with
its byte contents (bytes as naturals). -/
structure FS where
  dirs : List FsPath
  files : List (FsPath × List Nat)
deriving DecidableEq, Repr

/-- The empty filesystem. -/
def FS.empty : FS := ⟨[], []⟩

/-- Insert a directory if it is not already present (model of mkdir:
creating an existing directory is a no-op, so no duplicate is created). -/
def insertDir (ds : List FsPath) (d : FsPath) : List FsPath :=
  if d ∈ ds then ds else ds ++ [d]

/-- All non-empty prefixes of a path, shortest first. -/
def prefixesOf : FsPath → List FsPath
  | [] => []
  | c :: rest => [c] :: (prefixesOf rest).map (fun p => c :: p)

/-- Model of std fs create_dir_all: create the directory and every
missing parent, leaving existing directories untouched. -/
def FS.createDirAll (fs : FS) (d : FsPath) : FS :=
  { fs with dirs := (prefixesOf d).foldl insertDir fs.dirs }

/-- Model of writing a file: replace the contents if the path exists,
otherwise create it. -/
def FS.writeFile (fs : FS) (p : FsPath) (b : List Nat) : FS :=
  if fs.files.any (fun e => e.1 == p) then
    { fs with files := fs.files.map (fun e => if e.1 == p then (p, b) else e) }
  else
    { fs with files := fs.files ++ [(p, b)] }

/-- Model of deleting a file. -/
def FS.removeFile (fs : FS) (p : FsPath) : FS :=
  { fs with files := fs.files.filter (fun e => !(e.1 == p)) }

/-- Contents of the file at a path, if one exists. -/
def FS.readFile (fs : FS) (p : FsPath) : Option (List Nat) :=
  (fs.files.find? (fun e => e.1 == p)).map (fun e => e.2)

/-- Split a character list at every path separator (helper for
rustSplitOnSlash); the second argument accumulates the current component
in reverse. -/
def splitSlashAux : List Char → List Char → List String
  | [], cur => [String.mk cur.reverse]
  | c :: rest, cur =>
      if c = '/' then String.mk cur.reverse :: splitSlashAux rest []
      else splitSlashAux rest (c :: cur)

/-- Split a string into the components between path separators. -/
def rustSplitOnSlash (s : String) : List String := splitSlashAux s.toList []

/-- Model of Rust Path::join with a relative string argument: the string
is split on the separator into components which are appended, empty
components being skipped.  (The absolute-argument case of Path::join
never arises for the identifiers the receiver joins and is not
modelled.) -/
def rustJoin (base : FsPath) (s : String) : FsPath :=
  base ++ (rustSplitOnSlash s).filter (fun c => !(c == ""))

/-- A sender identifier made only of path-safe characters: non-empty and
containing no path separator, so that joining it to the storage root
appends exactly one component. -/
def pathSafe (s : String) : Prop := s ≠ "" ∧ rustSplitOnSlash s = [s]

instance (s : String) : Decidable (pathSafe s) := by
  unfold pathSafe; infer_instance

deriving instance DecidableEq for Except

/-- Failure cases of persist_dataset, one per fallible operation the Rust
function performs with the question-mark operator: create_dir_all,
NamedTempFile::new_in, and tokio fs write.  (The spec groups the last two
as WriteFailed.) -/
inductive PersistError
  | directoryUnavailable
  | tempfileFailed
  | writeFailed
deriving DecidableEq, Repr

/-- Oracle for one persist_dataset call: whether each fallible operation
succeeds, and the fresh name the tempfile library chooses for the
NamedTempFile. -/
structure PersistOracle where
  dirOk : Bool
  tempName : String
  tempOk : Bool
  writeOk : Bool
deriving DecidableEq, Repr

/-- Shallow embedding of NoctisReceiver::persist_dataset.

Rust source:
  let study_dir = self.storage_root.join(calling_aet);
  fs::create_dir_all(&study_dir).await?;
  let temp = tempfile::NamedTempFile::new_in(&study_dir)?;
  tokio::fs::write(temp.path(), &pdata.data_fragment).await?;
  Ok(temp.into_temp_path().to_path_buf())

Library semantics embedded here: NamedTempFile::new_in creates an empty
file under study_dir with a fresh name; into_temp_path converts the
handle into a TempPath, whose Drop implementation deletes the file at
that path; to_path_buf copies the path out of the TempPath, after which
the TempPath temporary is dropped at the end of the expression,
deleting the file.  Likewise, if the write fails, the NamedTempFile is
dropped during error propagation and its file is deleted.  The returned
state is the filesystem after the call has fully returned. -/
def persist_dataset (storage_root : FsPath) (o : PersistOracle) (fs : FS)
    (calling_aet : String) (data_fragment : List Nat) :
    FS × Except PersistError FsPath :=
  let study_dir := rustJoin storage_root calling_aet
  if o.dirOk = false then
    (fs, Except.error PersistError.directoryUnavailable)
  else
    let fs1 := fs.createDirAll study_dir
    if o.tempOk = false then
      (fs1, Except.error PersistError.tempfileFailed)
    else
      let temp := study_dir ++ [o.tempName]
      let fs2 := fs1.writeFile temp []
      if o.writeOk = false then
        (fs2.removeFile temp, Except.error PersistError.writeFailed)
      else
        let fs3 := fs2.writeFile temp data_fragment
        (fs3.removeFile temp, Except.ok temp)

/-- An all-success oracle with a given temp-file name. -/
def okOracle (name : String) : PersistOracle := ⟨true, name, true, true⟩

/-- Claim C1 (code bug evidence): a successful persist_dataset call with
sender SENDER_A and non-empty payload bytes 1,2,3 returns a path, yet no
file exists at that path afterwards and in fact no file exists at all:
the TempPath drop at the end of persist_dataset deletes the file whose
path is returned, refuting the claim that the file contents at the
returned path equal the payload. -/
theorem persist_dataset_deletes_returned_file :
    (persist_dataset ["media"] (okOracle "tmp1") FS.empty "SENDER_A" [1, 2, 3]).2
        = Except.ok ["media", "SENDER_A", "tmp1"]
    ∧ (persist_dataset ["media"] (okOracle "tmp1") FS.empty "SENDER_A" [1, 2, 3]).1.readFile
        ["media", "SENDER_A", "tmp1"] = none
    ∧ (persist_dataset ["media"] (okOracle "tmp1") FS.empty "SENDER_A" [1, 2, 3]).1.files = [] := by
  decide

/-- Claim C2 (code bug evidence): the path persist_dataset returns is the
temporary location itself (study_dir joined with the tempfile name the
oracle chose), not a distinct final path, and after the call the
filesystem holds no file at all: the payload is never atomically
established under any final name. -/
theorem persist_dataset_never_establishes_final_path :
    (persist_dataset ["media"] (okOracle "tmpX") FS.empty "A" [7]).2
        = Except.ok (rustJoin ["media"] "A" ++ [(okOracle "tmpX").tempName])
    ∧ (persist_dataset ["media"] (okOracle "tmpX") FS.empty "A" [7]).1.files = [] := by
  decide

/-- The structured body the receiver forwards downstream, with exactly
the three fields of the Rust struct IngestPayload (serde Serialize). -/
structure IngestPayload where
  file_path : FsPath
  calling_aet : String
  remote_host : String
deriving DecidableEq, Repr

/-- Rendering of a path as the string serde produces for a PathBuf:
components joined by the separator. -/
def pathToString (p : FsPath) : String :=
  String.mk (List.intercalate ['/'] (p.map String.toList))

/-- Serialization of an IngestPayload: the exact field names of the Rust
struct, in declaration order, each with the value passed in. -/
def serializePayload (p : IngestPayload) : List (String × String) :=
  [("file_path", pathToString p.file_path),
   ("calling_aet", p.calling_aet),
   ("remote_host", p.remote_host)]

/-- One outbound HTTP request: the endpoint posted to and the serialized
JSON body. -/
structure Request where
  endpoint : String
  body : List (String × String)
deriving DecidableEq, Repr

/-- Oracle for one outbound request: either the connection/transport
fails, or the endpoint answers with the given HTTP status code. -/
inductive HttpOutcome
  | transportFail
  | response (status : Nat)
deriving DecidableEq, Repr

/-- The two failure shapes of FastApiForwarder::send, one per
question-mark site: the send call itself failing (context string
Failed to send ingest payload, the spec's ForwardError Transport) and
error_for_status rejecting a non-success status (context string Gateway
rejected ingest payload, the spec's ForwardError Rejected with the
status). -/
inductive ForwardError
  | transport
  | rejected (status : Nat)
deriving DecidableEq, Repr

/-- The forwarder configuration: the downstream endpoint.  (The reqwest
client itself is modelled by the HttpOutcome oracle of each call.) -/
structure FastApiForwarder where
  endpoint : String
deriving DecidableEq, Repr

/-- Shallow embedding of FastApiForwarder::send.

Rust source:
  self.client.post(&self.endpoint).json(payload).send().await
      .context("Failed to send ingest payload")?
      .error_for_status()
      .context("Gateway rejected ingest payload")?;
  Ok(())

Returns the list of outbound requests issued (always exactly the one
post) together with the result.  reqwest error_for_status errors exactly
on client-error and server-error statuses, 400 through 599. -/
def FastApiForwarder.send (f : FastApiForwarder) (out : HttpOutcome)
    (payload : IngestPayload) : List Request × Except ForwardError Unit :=
  let req : Request := ⟨f.endpoint, serializePayload payload⟩
  match out with
  | HttpOutcome.transportFail => ([req], Except.error ForwardError.transport)
  | HttpOutcome.response s =>
      if 400 ≤ s ∧ s ≤ 599 then ([req], Except.error (ForwardError.rejected s))
      else ([req], Except.ok ())

/-- The fragment type tag of a dicom_ul PDataValue: a payload (Data)
fragment or a control (Command) fragment. -/
inductive PDataValueType
  | data
  | command
deriving DecidableEq, Repr

/-- Projection of a dicom_ul PDataValue onto the fields handle_p_data
reads: the type tag and the payload bytes. -/
structure PDataValue where
  pdv_type : PDataValueType
  data_fragment : List Nat
deriving DecidableEq, Repr

/-- Projection of a dicom_ul Association onto the two accessors
handle_p_data calls: the caller application title and the peer address
(already rendered as the IP string that addr.ip().to_string() would
produce), each of which can fail. -/
structure Association where
  caller_ae_title : Except Unit String
  peer_addr : Except Unit String
deriving DecidableEq, Repr

/-- Model of Rust str::trim: drop whitespace from both ends. -/
def rustTrim (s : String) : String :=
  String.mk (((s.toList.dropWhile (fun c => c.isWhitespace)).reverse.dropWhile
    (fun c => c.isWhitespace)).reverse)

/-- The sender identifier handle_p_data computes:
assoc.caller_ae_title().unwrap_or_else(UNKNOWN).trim().to_string(). -/
def callingAet (assoc : Association) : String :=
  rustTrim (match assoc.caller_ae_title with
    | Except.ok s => s
    | Except.error _ => "UNKNOWN")

/-- The remote host handle_p_data computes:
assoc.peer_addr().map(ip-to-string).unwrap_or_else(unknown). -/
def remoteHost (assoc : Association) : String :=
  match assoc.peer_addr with
  | Except.ok ip => ip
  | Except.error _ => "unknown"

/-- The receiver state built at startup: the storage root and the
forwarder (NoctisReceiver struct). -/
structure NoctisReceiver where
  storage_root : FsPath
  forwarder : FastApiForwarder
deriving DecidableEq, Repr

/-- Oracle for one handle_p_data call: the persist oracle and the HTTP
outcome of the (at most one) forwarding attempt. -/
structure StepOracle where
  persist : PersistOracle
  http : HttpOutcome
deriving DecidableEq, Repr

/-- Observable outcome of one handle_p_data call: the filesystem after
the call, the persist_dataset invocations made (sender identifier and
payload bytes of each), the forwarder.send invocations made (the
IngestPayload of each), the outbound requests issued, and the error log
entries emitted. -/
structure StepResult where
  fs : FS
  persistCalls : List (String × List Nat)
  forwardCalls : List IngestPayload
  requests : List Request
  errors : List String
deriving DecidableEq, Repr

/-- Shallow embedding of NoctisReceiver::handle_p_data.

Rust source: return immediately unless the fragment type is Data;
compute calling_aet and remote_host with their UNKNOWN and unknown
fallbacks; call persist_dataset; on Ok build the IngestPayload from the
returned path, calling_aet and remote_host and call forwarder.send,
logging Failed to forward ingest payload if it errs; on Err log Failed
to persist dataset.  The function returns unit in Rust: every failure is
absorbed here and the traces record what happened. -/
def handle_p_data (rcv : NoctisReceiver) (o : StepOracle) (value : PDataValue)
    (assoc : Association) (fs : FS) : StepResult :=
  if value.pdv_type ≠ PDataValueType.data then
    ⟨fs, [], [], [], []⟩
  else
    let calling_aet := callingAet assoc
    let remote_host := remoteHost assoc
    let pres := persist_dataset rcv.storage_root o.persist fs calling_aet value.data_fragment
    match pres.2 with
    | Except.ok file_path =>
        let payload : IngestPayload := ⟨file_path, calling_aet, remote_host⟩
        let fres := rcv.forwarder.send o.http payload
        match fres.2 with
        | Except.ok _ =>
            ⟨pres.1, [(calling_aet, value.data_fragment)], [payload], fres.1, []⟩
        | Except.error _ =>
            ⟨pres.1, [(calling_aet, value.data_fragment)], [payload], fres.1,
              ["Failed to forward ingest payload"]⟩
    | Except.error _ =>
        ⟨pres.1, [(calling_aet, value.data_fragment)], [], [],
          ["Failed to persist dataset"]⟩

/-- Observable outcome of one whole connection: final filesystem and the
concatenated traces of every fragment, in arrival order. -/
structure ConnResult where
  fs : FS
  persistCalls : List (String × List Nat)
  forwardCalls : List IngestPayload
  errors : List String
deriving DecidableEq, Repr

/-- Modelled from the spec: the per-connection driver is part of the
external dicom_ul transport collaborator, which delivers the fragments
of one connection strictly sequentially in arrival order to the
handle_p_data callback of the ServiceClassProvider; each fragment comes
with the oracle of its I/O outcomes. -/
def handleConnection (rcv : NoctisReceiver) (assoc : Association) :
    List (StepOracle × PDataValue) → FS → ConnResult
  | [], fs => ⟨fs, [], [], []⟩
  | (o, v) :: rest, fs =>
      let r := handle_p_data rcv o v assoc fs
      let rr := handleConnection rcv assoc rest r.fs
      ⟨rr.fs, r.persistCalls ++ rr.persistCalls, r.forwardCalls ++ rr.forwardCalls,
        r.errors ++ rr.errors⟩

/-- Accumulate a digit string into a natural number; none on the first
non-digit. -/
def digitsToNatAux : List Char → Nat → Option Nat
  | [], acc => some acc
  | c :: rest, acc =>
      if c.isDigit then digitsToNatAux rest (acc * 10 + (c.toNat - 48)) else none

/-- Model of Rust str::parse::<u16>: an optional leading plus sign, then
one or more ASCII digits, whose value must fit in sixteen bits. -/
def rustParseU16 (s : String) : Option Nat :=
  let cs := s.toList
  let cs2 := match cs with
    | c :: rest => if c = '+' then rest else cs
    | [] => cs
  if cs2 = [] then none
  else match digitsToNatAux cs2 0 with
    | some n => if n < 65536 then some n else none
    | none => none

/-- The environment variables main reads, each possibly unset. -/
structure EnvMap where
  dicomPort : Option String
  dicomAet : Option String
  fastapiUrl : Option String
  dicomStorage : Option String
deriving DecidableEq, Repr

/-- The configuration main resolves before wiring the receiver. -/
structure Config where
  port : Nat
  aet : String
  api_url : String
  storage_root : String
deriving DecidableEq, Repr

/-- Shallow embedding of the configuration block of main.

Rust source:
  let port: u16 = env::var("NOCTIS_DICOM_PORT").unwrap_or_else("11112")
      .parse().context("Invalid NOCTIS_DICOM_PORT")?;
  let aet = env::var("NOCTIS_DICOM_AET").unwrap_or_else("NOCTIS_SCP");
  let api_url = env::var("NOCTIS_FASTAPI_URL")
      .unwrap_or_else("http://127.0.0.1:9000/dicom/ingest");
  let storage_root = PathBuf::from(env::var("NOCTIS_DICOM_STORAGE")
      .unwrap_or_else("./media/dicom/received"));

The question mark propagates a parse failure out of main as an error
result. -/
def resolveConfig (env : EnvMap) : Except String Config :=
  match rustParseU16 (env.dicomPort.getD "11112") with
  | none => Except.error "Invalid NOCTIS_DICOM_PORT"
  | some p =>
      Except.ok ⟨p, env.dicomAet.getD "NOCTIS_SCP",
        env.fastapiUrl.getD "http://127.0.0.1:9000/dicom/ingest",
        env.dicomStorage.getD "./media/dicom/received"⟩

/-- Modelled from the spec: the process exit status of the Rust main
returning an anyhow Result, per the Termination semantics of Result that
the spec calls startup-fatal: zero when main reaches Ok, non-zero when
an error propagates out (as an invalid port value does through the
question mark at the parse call). -/
def exitStatus (r : Except String Config) : Nat :=
  match r with
  | Except.ok _ => 0
  | Except.error _ => 1

/-- Writing a file never changes the set of directories. -/
theorem FS.writeFile_dirs (fs : FS) (p : FsPath) (b : List Nat) :
    (fs.writeFile p b).dirs = fs.dirs := by
  unfold FS.writeFile; split <;> rfl

/-- Removing a file never changes the set of directories. -/
theorem FS.removeFile_dirs (fs : FS) (p : FsPath) :
    (fs.removeFile p).dirs = fs.dirs := rfl

/-- The persist_dataset invocation trace of one handle_p_data call: one
invocation when the fragment is a payload fragment, none otherwise,
whatever the oracle outcomes. -/
theorem handle_p_data_persistCalls (rcv : NoctisReceiver) (o : StepOracle)
    (v : PDataValue) (assoc : Association) (fs : FS) :
    (handle_p_data rcv o v assoc fs).persistCalls =
      if v.pdv_type = PDataValueType.data then [(callingAet assoc, v.data_fragment)]
      else [] := by
  unfold handle_p_data
  by_cases h : v.pdv_type = PDataValueType.data
  · rw [if_neg (not_not_intro h), if_pos h]
    dsimp only
    split
    · split <;> rfl
    · rfl
  · rw [if_pos h, if_neg h]

/-- The forwarder.send invocation trace of one handle_p_data call on a
payload fragment: exactly one invocation, built from the path persist
returned, the sender identifier and the remote host, when persistence
succeeded; none when it failed. -/
theorem handle_p_data_forwardCalls (rcv : NoctisReceiver) (o : StepOracle)
    (v : PDataValue) (assoc : Association) (fs : FS)
    (hdata : v.pdv_type = PDataValueType.data) :
    (handle_p_data rcv o v assoc fs).forwardCalls =
      match (persist_dataset rcv.storage_root o.persist fs (callingAet assoc)
          v.data_fragment).2 with
      | Except.ok p => [⟨p, callingAet assoc, remoteHost assoc⟩]
      | Except.error _ => [] := by
  unfold handle_p_data
  rw [if_neg (not_not_intro hdata)]
  dsimp only
  cases hp : (persist_dataset rcv.storage_root o.persist fs (callingAet assoc)
      v.data_fragment).2 with
  | ok p => dsimp only; split <;> rfl
  | error e => rfl

/-- The errors one handle_p_data call logs on a payload fragment: the
persist failure message when persistence fails, the forward failure
message when persistence succeeds and forwarding fails, nothing when both
succeed. -/
theorem handle_p_data_errors (rcv : NoctisReceiver) (o : StepOracle)
    (v : PDataValue) (assoc : Association) (fs : FS)
    (hdata : v.pdv_type = PDataValueType.data) :
    (handle_p_data rcv o v assoc fs).errors =
      match (persist_dataset rcv.storage_root o.persist fs (callingAet assoc)
          v.data_fragment).2 with
      | Except.ok p =>
          match (rcv.forwarder.send o.http ⟨p, callingAet assoc, remoteHost assoc⟩).2 with
          | Except.ok _ => []
          | Except.error _ => ["Failed to forward ingest payload"]
      | Except.error _ => ["Failed to persist dataset"] := by
  unfold handle_p_data
  rw [if_neg (not_not_intro hdata)]
  dsimp only
  cases hp : (persist_dataset rcv.storage_root o.persist fs (callingAet assoc)
      v.data_fragment).2 with
  | ok p =>
      dsimp only
      cases hf : (rcv.forwarder.send o.http
          ⟨p, callingAet assoc, remoteHost assoc⟩).2 with
      | ok u => rfl
      | error e => rfl
  | error e => rfl

/-- A concrete forwarder, receiver, association and all-success oracle
used by the concrete instantiations below. -/
def sampleForwarder : FastApiForwarder := ⟨"http://127.0.0.1:9000/dicom/ingest"⟩

/-- A concrete receiver over storage root media. -/
def sampleReceiver : NoctisReceiver := ⟨["media"], sampleForwarder⟩

/-- A concrete association whose caller title is A and whose peer is
10.0.0.1. -/
def sampleAssoc : Association := ⟨Except.ok "A", Except.ok "10.0.0.1"⟩

/-- A concrete accepting HTTP outcome. -/
def sampleHttp : HttpOutcome := HttpOutcome.response 200

/-- A concrete all-success step oracle. -/
def sampleOracle : StepOracle := ⟨okOracle "t1", sampleHttp⟩

/-- Claim C3: for every payload fragment, forwarder.send is invoked
exactly when persist_dataset succeeded for that fragment — once, with
the IngestPayload built from exactly the returned path, the sender
identifier and the remote host — and never when persistence failed. -/
theorem forward_called_iff_persist_ok (rcv : NoctisReceiver) (o : StepOracle)
    (v : PDataValue) (assoc : Association) (fs : FS)
    (hdata : v.pdv_type = PDataValueType.data) :
    (∀ p, (persist_dataset rcv.storage_root o.persist fs (callingAet assoc)
        v.data_fragment).2 = Except.ok p →
      (handle_p_data rcv o v assoc fs).forwardCalls
        = [⟨p, callingAet assoc, remoteHost assoc⟩])
    ∧ (∀ e, (persist_dataset rcv.storage_root o.persist fs (callingAet assoc)
        v.data_fragment).2 = Except.error e →
      (handle_p_data rcv o v assoc fs).forwardCalls = []) := by
  constructor
  · intro p hp
    rw [handle_p_data_forwardCalls rcv o v assoc fs hdata, hp]
  · intro e he
    rw [handle_p_data_forwardCalls rcv o v assoc fs hdata, he]

/-- Witness for C3: a concrete successful persist of bytes 1,2 by sender
A leads to exactly one forward call carrying the returned path, the
sender identifier and the remote host. -/
theorem forward_called_iff_persist_ok_witness :
    (⟨PDataValueType.data, [1, 2]⟩ : PDataValue).pdv_type = PDataValueType.data
    ∧ (persist_dataset sampleReceiver.storage_root sampleOracle.persist FS.empty
        (callingAet sampleAssoc) [1, 2]).2 = Except.ok ["media", "A", "t1"]
    ∧ (handle_p_data sampleReceiver sampleOracle ⟨PDataValueType.data, [1, 2]⟩ sampleAssoc
        FS.empty).forwardCalls
        = [⟨["media", "A", "t1"], callingAet sampleAssoc, remoteHost sampleAssoc⟩] :=
  ⟨rfl, by decide,
   (forward_called_iff_persist_ok sampleReceiver sampleOracle ⟨PDataValueType.data, [1, 2]⟩
      sampleAssoc FS.empty rfl).1 ["media", "A", "t1"] (by decide)⟩

/-- The fragment sequence data, data, control, data of the spec's
ordering scenario, with an all-success oracle for each fragment. -/
def c5Frags : List (StepOracle × PDataValue) :=
  [(⟨okOracle "t1", sampleHttp⟩, ⟨PDataValueType.data, [1]⟩),
   (⟨okOracle "t2", sampleHttp⟩, ⟨PDataValueType.data, [2]⟩),
   (⟨okOracle "t3", sampleHttp⟩, ⟨PDataValueType.command, [3]⟩),
   (⟨okOracle "t4", sampleHttp⟩, ⟨PDataValueType.data, [4]⟩)]

/-- Claim C5: a control fragment is discarded — handle_p_data returns
with the filesystem untouched and no persist call, no forward call, no
request and no log entry — and on the fragment sequence data, data,
control, data of one connection, persist and forward are invoked exactly
for the three data fragments, in arrival order. -/
theorem control_fragments_skipped_data_in_order :
    (∀ (rcv : NoctisReceiver) (o : StepOracle) (v : PDataValue)
        (assoc : Association) (fs : FS),
      v.pdv_type = PDataValueType.command →
      handle_p_data rcv o v assoc fs = ⟨fs, [], [], [], []⟩)
    ∧ (handleConnection sampleReceiver sampleAssoc c5Frags FS.empty).persistCalls
        = [("A", [1]), ("A", [2]), ("A", [4])]
    ∧ (handleConnection sampleReceiver sampleAssoc c5Frags FS.empty).forwardCalls
        = [⟨["media", "A", "t1"], "A", "10.0.0.1"⟩,
           ⟨["media", "A", "t2"], "A", "10.0.0.1"⟩,
           ⟨["media", "A", "t4"], "A", "10.0.0.1"⟩] := by
  refine ⟨?_, by decide, by decide⟩
  intro rcv o v assoc fs h
  unfold handle_p_data
  rw [if_pos (by rw [h]; decide)]

/-- Witness for C5: a concrete control fragment is discarded with no
side effect. -/
theorem control_fragments_skipped_data_in_order_witness :
    (⟨PDataValueType.command, [9]⟩ : PDataValue).pdv_type = PDataValueType.command
    ∧ handle_p_data sampleReceiver sampleOracle ⟨PDataValueType.command, [9]⟩ sampleAssoc
        FS.empty = ⟨FS.empty, [], [], [], []⟩ :=
  ⟨rfl, control_fragments_skipped_data_in_order.1 sampleReceiver sampleOracle
      ⟨PDataValueType.command, [9]⟩ sampleAssoc FS.empty rfl⟩

/-- Claim C4: a persist or forward failure for one fragment is recorded
in the log and never aborts the connection.  First conjunct: over a whole
connection, the persist invocation trace has exactly one entry per
payload fragment, in arrival order, with that fragment's bytes, whatever
each fragment's oracle outcomes — so earlier failures never prevent a
later fragment's persist attempt.  Second and third conjuncts: a persist
failure logs the persist error entry, and a forward failure after a
successful persist logs the forward error entry. -/
theorem connection_continues_after_failures :
    (∀ (rcv : NoctisReceiver) (assoc : Association)
        (frags : List (StepOracle × PDataValue)) (fs : FS),
      (handleConnection rcv assoc frags fs).persistCalls =
        (frags.filter (fun x => x.2.pdv_type == PDataValueType.data)).map
          (fun x => (callingAet assoc, x.2.data_fragment)))
    ∧ (∀ (rcv : NoctisReceiver) (o : StepOracle) (v : PDataValue)
          (assoc : Association) (fs : FS),
        v.pdv_type = PDataValueType.data →
        ∀ e, (persist_dataset rcv.storage_root o.persist fs (callingAet assoc)
            v.data_fragment).2 = Except.error e →
          (handle_p_data rcv o v assoc fs).errors = ["Failed to persist dataset"])
    ∧ (∀ (rcv : NoctisReceiver) (o : StepOracle) (v : PDataValue)
          (assoc : Association) (fs : FS),
        v.pdv_type = PDataValueType.data →
        ∀ p, (persist_dataset rcv.storage_root o.persist fs (callingAet assoc)
            v.data_fragment).2 = Except.ok p →
          ∀ fe, (rcv.forwarder.send o.http ⟨p, callingAet assoc, remoteHost assoc⟩).2
              = Except.error fe →
            (handle_p_data rcv o v assoc fs).errors
              = ["Failed to forward ingest payload"]) := by
  refine ⟨?_, ?_, ?_⟩
  · intro rcv assoc frags
    induction frags with
    | nil => intro fs; rfl
    | cons hd tl ih =>
        intro fs
        obtain ⟨o, v⟩ := hd
        unfold handleConnection
        dsimp only
        rw [handle_p_data_persistCalls, ih]
        by_cases h : v.pdv_type = PDataValueType.data
        · simp [h, List.filter_cons]
        · simp [h, List.filter_cons]
  · intro rcv o v assoc fs h e he
    rw [handle_p_data_errors rcv o v assoc fs h, he]
  · intro rcv o v assoc fs h p hp fe hf
    rw [handle_p_data_errors rcv o v assoc fs h, hp]
    dsimp only
    rw [hf]

/-- A step oracle whose persist fails at directory creation. -/
def failDirOracle : StepOracle := ⟨⟨false, "t", true, true⟩, sampleHttp⟩

/-- Witness for C4: a concrete failing persist is logged, and on a
connection whose first fragment's persist fails, the second fragment's
persist is still attempted. -/
theorem connection_continues_after_failures_witness :
    (⟨PDataValueType.data, [5]⟩ : PDataValue).pdv_type = PDataValueType.data
    ∧ (persist_dataset sampleReceiver.storage_root failDirOracle.persist FS.empty
        (callingAet sampleAssoc) [5]).2 = Except.error PersistError.directoryUnavailable
    ∧ (handle_p_data sampleReceiver failDirOracle ⟨PDataValueType.data, [5]⟩ sampleAssoc
        FS.empty).errors = ["Failed to persist dataset"]
    ∧ (handleConnection sampleReceiver sampleAssoc
        [(failDirOracle, ⟨PDataValueType.data, [5]⟩),
         (⟨okOracle "t9", sampleHttp⟩, ⟨PDataValueType.data, [6]⟩)] FS.empty).persistCalls
        = [("A", [5]), ("A", [6])] :=
  ⟨rfl, by decide,
   connection_continues_after_failures.2.1 sampleReceiver failDirOracle
     ⟨PDataValueType.data, [5]⟩ sampleAssoc FS.empty rfl
     PersistError.directoryUnavailable (by decide),
   (connection_continues_after_failures.1 sampleReceiver sampleAssoc
     [(failDirOracle, ⟨PDataValueType.data, [5]⟩),
      (⟨okOracle "t9", sampleHttp⟩, ⟨PDataValueType.data, [6]⟩)] FS.empty).trans (by decide)⟩

/-- Claim C6: every send call issues exactly one outbound request, whose
body holds exactly the three declared fields file_path, calling_aet and
remote_host with exactly the values of the event passed in; and against
an endpoint answering a success status the call returns Ok with no
error. -/
theorem send_serializes_exact_fields_once (f : FastApiForwarder) (out : HttpOutcome)
    (p : IngestPayload) :
    (f.send out p).1 = [⟨f.endpoint,
        [("file_path", pathToString p.file_path),
         ("calling_aet", p.calling_aet),
         ("remote_host", p.remote_host)]⟩]
    ∧ (∀ s, 200 ≤ s → s ≤ 299 →
        (f.send (HttpOutcome.response s) p).2 = Except.ok ()) := by
  constructor
  · unfold FastApiForwarder.send serializePayload
    cases out with
    | transportFail => rfl
    | response s => dsimp only; split <;> rfl
  · intro s h1 h2
    unfold FastApiForwarder.send
    dsimp only
    rw [if_neg (by omega)]

/-- A concrete ingest event. -/
def samplePayload : IngestPayload := ⟨["media", "A", "t1"], "A", "10.0.0.1"⟩

/-- Witness for C6 at a concrete event and an accepting endpoint. -/
theorem send_serializes_exact_fields_once_witness :
    (200 ≤ 200 ∧ 200 ≤ 299)
    ∧ (sampleForwarder.send (HttpOutcome.response 200) samplePayload).1
        = [⟨sampleForwarder.endpoint,
            [("file_path", pathToString samplePayload.file_path),
             ("calling_aet", samplePayload.calling_aet),
             ("remote_host", samplePayload.remote_host)]⟩]
    ∧ (sampleForwarder.send (HttpOutcome.response 200) samplePayload).2 = Except.ok () :=
  ⟨⟨by decide, by decide⟩,
   (send_serializes_exact_fields_once sampleForwarder (HttpOutcome.response 200)
      samplePayload).1,
   (send_serializes_exact_fields_once sampleForwarder (HttpOutcome.response 200)
      samplePayload).2 200 (by decide) (by decide)⟩

/-- Claim C7: a non-success response makes send return exactly one
rejected error carrying the status, with exactly the one outbound
request already issued and no second one (no retry), and a transport
failure likewise yields the transport error after the single request. -/
theorem send_rejects_without_retry (f : FastApiForwarder) (p : IngestPayload) :
    (∀ s, 400 ≤ s → s ≤ 599 →
      f.send (HttpOutcome.response s) p
        = ([⟨f.endpoint, serializePayload p⟩], Except.error (ForwardError.rejected s)))
    ∧ f.send HttpOutcome.transportFail p
        = ([⟨f.endpoint, serializePayload p⟩], Except.error ForwardError.transport) := by
  constructor
  · intro s h1 h2
    unfold FastApiForwarder.send
    dsimp only
    rw [if_pos ⟨h1, h2⟩]
  · rfl

/-- Witness for C7 at a concrete server-error status. -/
theorem send_rejects_without_retry_witness :
    (400 ≤ 500 ∧ 500 ≤ 599)
    ∧ sampleForwarder.send (HttpOutcome.response 500) samplePayload
        = ([⟨sampleForwarder.endpoint, serializePayload samplePayload⟩],
           Except.error (ForwardError.rejected 500)) :=
  ⟨⟨by decide, by decide⟩,
   (send_rejects_without_retry sampleForwarder samplePayload).1 500 (by decide) (by decide)⟩

/-- A directory is a member after inserting it. -/
theorem insertDir_mem_self (ds : List FsPath) (d : FsPath) : d ∈ insertDir ds d := by
  unfold insertDir
  split
  · assumption
  · simp

/-- Inserting a directory keeps every existing member. -/
theorem insertDir_mem_mono (ds : List FsPath) (d x : FsPath) (h : x ∈ ds) :
    x ∈ insertDir ds d := by
  unfold insertDir
  split
  · exact h
  · simp [h]

/-- Inserting an already-present directory changes nothing. -/
theorem insertDir_eq_of_mem (ds : List FsPath) (d : FsPath) (h : d ∈ ds) :
    insertDir ds d = ds := if_pos h

/-- Folded insertion keeps every existing member. -/
theorem foldl_insertDir_mem_mono (ps : List FsPath) (ds : List FsPath) (x : FsPath)
    (h : x ∈ ds) : x ∈ ps.foldl insertDir ds := by
  induction ps generalizing ds with
  | nil => exact h
  | cons p ps ih => exact ih _ (insertDir_mem_mono _ _ _ h)

/-- Every inserted directory is a member after folded insertion. -/
theorem foldl_insertDir_mem_of_mem (ps : List FsPath) (ds : List FsPath) (p : FsPath)
    (h : p ∈ ps) : p ∈ ps.foldl insertDir ds := by
  induction ps generalizing ds with
  | nil => cases h
  | cons q qs ih =>
      cases h with
      | head => exact foldl_insertDir_mem_mono qs _ _ (insertDir_mem_self ds p)
      | tail _ hmem => exact ih _ hmem

/-- Folded insertion of directories that are all already present changes
nothing. -/
theorem foldl_insertDir_of_forall_mem (ps : List FsPath) (ds : List FsPath)
    (h : ∀ p ∈ ps, p ∈ ds) : ps.foldl insertDir ds = ds := by
  induction ps with
  | nil => rfl
  | cons q qs ih =>
      rw [List.foldl_cons, insertDir_eq_of_mem _ _ (h q (List.mem_cons_self q qs))]
      exact ih (fun p hp => h p (List.mem_cons_of_mem q hp))

/-- A non-empty path is one of its own prefixes. -/
theorem self_mem_prefixesOf : ∀ (p : FsPath), p ≠ [] → p ∈ prefixesOf p
  | [], h => absurd rfl h
  | [c], _ => by simp [prefixesOf]
  | c :: x :: xs, _ => by
      have ih := self_mem_prefixesOf (x :: xs) (by simp)
      unfold prefixesOf
      simp only [List.mem_cons, List.mem_map]
      right
      exact ⟨x :: xs, ih, rfl⟩

/-- Joining a path-safe identifier onto a base path appends exactly that
one component. -/
theorem rustJoin_pathSafe (base : FsPath) (id : String) (h : pathSafe id) :
    rustJoin base id = base ++ [id] := by
  unfold rustJoin
  rw [h.2]
  have hne : (id == "") = false := beq_eq_false_iff_ne.mpr h.1
  simp [List.filter, hne]

/-- After a persist call whose directory creation succeeded, the
directories are exactly those of create_dir_all on the study directory:
the later file operations never touch them. -/
theorem persist_dataset_dirs (storage_root : FsPath) (o : PersistOracle) (fs : FS)
    (id : String) (d : List Nat) (h : o.dirOk = true) :
    (persist_dataset storage_root o fs id d).1.dirs
      = (prefixesOf (rustJoin storage_root id)).foldl insertDir fs.dirs := by
  unfold persist_dataset
  rw [if_neg (by rw [h]; decide)]
  dsimp only
  by_cases ht : o.tempOk = false
  · rw [if_pos ht]
    rfl
  · rw [if_neg ht]
    by_cases hw : o.writeOk = false
    · rw [if_pos hw]
      rw [FS.removeFile_dirs, FS.writeFile_dirs]
      rfl
    · rw [if_neg hw]
      rw [FS.removeFile_dirs, FS.writeFile_dirs, FS.writeFile_dirs]
      rfl

/-- A persist call whose directory creation fails leaves the filesystem
untouched. -/
theorem persist_dataset_dirs_fail (storage_root : FsPath) (o : PersistOracle) (fs : FS)
    (id : String) (d : List Nat) (h : o.dirOk = false) :
    (persist_dataset storage_root o fs id d).1 = fs := by
  unfold persist_dataset
  rw [if_pos h]

/-- Claim C8: two persist calls with the same path-safe sender identifier
target the same single subdirectory under the storage root (the join is
deterministic and appends one component); the second call creates no
directory the first did not already create (the directory set is
unchanged); and the sender subdirectory exists after the first
successful creation. -/
theorem persist_same_sender_single_subdir (root : FsPath) (id : String)
    (o1 o2 : PersistOracle) (fs : FS) (d1 d2 : List Nat)
    (hsafe : pathSafe id) (h1 : o1.dirOk = true) :
    rustJoin root id = root ++ [id]
    ∧ (persist_dataset root o2 (persist_dataset root o1 fs id d1).1 id d2).1.dirs
        = (persist_dataset root o1 fs id d1).1.dirs
    ∧ (root ++ [id]) ∈ (persist_dataset root o1 fs id d1).1.dirs := by
  refine ⟨rustJoin_pathSafe root id hsafe, ?_, ?_⟩
  · by_cases h2 : o2.dirOk = true
    · rw [persist_dataset_dirs root o2 _ id d2 h2,
          persist_dataset_dirs root o1 fs id d1 h1]
      exact foldl_insertDir_of_forall_mem _ _
        (fun p hp => foldl_insertDir_mem_of_mem _ _ p hp)
    · have h2f : o2.dirOk = false := by revert h2; cases o2.dirOk <;> simp
      rw [persist_dataset_dirs_fail root o2 _ id d2 h2f]
  · rw [persist_dataset_dirs root o1 fs id d1 h1]
    rw [← rustJoin_pathSafe root id hsafe]
    exact foldl_insertDir_mem_of_mem _ _ _
      (self_mem_prefixesOf _ (by rw [rustJoin_pathSafe root id hsafe]; simp))

/-- Witness for C8: two concrete persist calls by sender A under the
media root share the one subdirectory, with no duplicate created. -/
theorem persist_same_sender_single_subdir_witness :
    (pathSafe "A" ∧ (okOracle "t1").dirOk = true)
    ∧ rustJoin ["media"] "A" = ["media"] ++ ["A"]
    ∧ (persist_dataset ["media"] (okOracle "t2")
        (persist_dataset ["media"] (okOracle "t1") FS.empty "A" [1]).1 "A" [2]).1.dirs
        = (persist_dataset ["media"] (okOracle "t1") FS.empty "A" [1]).1.dirs
    ∧ (["media"] ++ ["A"])
        ∈ (persist_dataset ["media"] (okOracle "t1") FS.empty "A" [1]).1.dirs :=
  ⟨⟨by decide, rfl⟩,
   (persist_same_sender_single_subdir ["media"] "A" (okOracle "t1") (okOracle "t2")
      FS.empty [1] [2] (by decide) rfl).1,
   (persist_same_sender_single_subdir ["media"] "A" (okOracle "t1") (okOracle "t2")
      FS.empty [1] [2] (by decide) rfl).2.1,
   (persist_same_sender_single_subdir ["media"] "A" (okOracle "t1") (okOracle "t2")
      FS.empty [1] [2] (by decide) rfl).2.2⟩

/-- Claim C9: with every option unset the resolved configuration is
exactly the defaults (port 11112, title NOCTIS_SCP, the default
downstream URL and storage root); each unset option takes its default
individually whatever the others hold; and a set port value that does
not parse as a sixteen-bit number is startup-fatal — the configuration
step returns the invalid-port error and the process exit status is
non-zero. -/
theorem config_defaults_and_invalid_port_fatal :
    resolveConfig ⟨none, none, none, none⟩
      = Except.ok ⟨11112, "NOCTIS_SCP", "http://127.0.0.1:9000/dicom/ingest",
          "./media/dicom/received"⟩
    ∧ (∀ (env : EnvMap) (c : Config), resolveConfig env = Except.ok c →
        (env.dicomPort = none → c.port = 11112)
        ∧ (env.dicomAet = none → c.aet = "NOCTIS_SCP")
        ∧ (env.fastapiUrl = none → c.api_url = "http://127.0.0.1:9000/dicom/ingest")
        ∧ (env.dicomStorage = none → c.storage_root = "./media/dicom/received"))
    ∧ (∀ (env : EnvMap) (s : String), env.dicomPort = some s → rustParseU16 s = none →
        resolveConfig env = Except.error "Invalid NOCTIS_DICOM_PORT"
        ∧ exitStatus (resolveConfig env) = 1) := by
  refine ⟨by decide, ?_, ?_⟩
  · intro env c h
    unfold resolveConfig at h
    cases hp : rustParseU16 (env.dicomPort.getD "11112") with
    | none => rw [hp] at h; cases h
    | some n =>
        rw [hp] at h
        injection h with h
        subst h
        refine ⟨?_, ?_, ?_, ?_⟩
        · intro hn
          rw [hn] at hp
          have h11 : rustParseU16 (Option.getD none "11112") = some 11112 := by decide
          rw [h11] at hp
          injection hp with hp
          exact hp.symm
        · intro hn
          rw [hn]
          rfl
        · intro hn
          rw [hn]
          rfl
        · intro hn
          rw [hn]
          rfl
  · intro env s hs hp
    have hr : resolveConfig env = Except.error "Invalid NOCTIS_DICOM_PORT" := by
      unfold resolveConfig
      rw [hs]
      dsimp only [Option.getD]
      rw [hp]
    exact ⟨hr, by rw [hr]; rfl⟩

/-- Witness for C9: a concrete environment whose port value does not
parse makes startup fail with the invalid-port error and exit status
one. -/
theorem config_defaults_and_invalid_port_fatal_witness :
    ((⟨some "not-a-port", none, none, none⟩ : EnvMap).dicomPort = some "not-a-port"
      ∧ rustParseU16 "not-a-port" = none)
    ∧ resolveConfig ⟨some "not-a-port", none, none, none⟩
        = Except.error "Invalid NOCTIS_DICOM_PORT"
    ∧ exitStatus (resolveConfig ⟨some "not-a-port", none, none, none⟩) = 1 :=
  ⟨⟨rfl, by decide⟩,
   (config_defaults_and_invalid_port_fatal.2.2 ⟨some "not-a-port", none, none, none⟩
      "not-a-port" rfl (by decide)).1,
   (config_defaults_and_invalid_port_fatal.2.2 ⟨some "not-a-port", none, none, none⟩
      "not-a-port" rfl (by decide)).2⟩

/-- Claim C10: when the caller title accessor fails the orchestrator uses
the trimmed fallback sender identifier UNKNOWN, when the peer address
accessor fails it uses the remote host unknown, and in both cases the
payload fragment is still persisted (exactly one persist invocation,
with the computed identifier) and, when persistence succeeds, still
forwarded with those values. -/
theorem unknown_fallbacks_still_persist_and_forward (rcv : NoctisReceiver)
    (o : StepOracle) (v : PDataValue) (assoc : Association) (fs : FS)
    (hdata : v.pdv_type = PDataValueType.data) :
    (assoc.caller_ae_title.isOk = false → callingAet assoc = "UNKNOWN")
    ∧ (assoc.peer_addr.isOk = false → remoteHost assoc = "unknown")
    ∧ (handle_p_data rcv o v assoc fs).persistCalls
        = [(callingAet assoc, v.data_fragment)]
    ∧ (∀ p, (persist_dataset rcv.storage_root o.persist fs (callingAet assoc)
        v.data_fragment).2 = Except.ok p →
      (handle_p_data rcv o v assoc fs).forwardCalls
        = [⟨p, callingAet assoc, remoteHost assoc⟩]) := by
  refine ⟨?_, ?_, ?_, ?_⟩
  · intro h
    unfold callingAet
    cases hc : assoc.caller_ae_title with
    | ok s => rw [hc] at h; exact Bool.noConfusion h
    | error u => cases u; decide
  · intro h
    unfold remoteHost
    cases hc : assoc.peer_addr with
    | ok s => rw [hc] at h; exact Bool.noConfusion h
    | error u => cases u; rfl
  · rw [handle_p_data_persistCalls, if_pos hdata]
  · intro p hp
    rw [handle_p_data_forwardCalls rcv o v assoc fs hdata, hp]

/-- An association both of whose accessors fail. -/
def unknownAssoc : Association := ⟨Except.error (), Except.error ()⟩

/-- Witness for C10: with both accessors failing, the fragment is
persisted under UNKNOWN and forwarded with remote host unknown. -/
theorem unknown_fallbacks_still_persist_and_forward_witness :
    ((⟨PDataValueType.data, [3]⟩ : PDataValue).pdv_type = PDataValueType.data
      ∧ unknownAssoc.caller_ae_title.isOk = false
      ∧ unknownAssoc.peer_addr.isOk = false)
    ∧ callingAet unknownAssoc = "UNKNOWN"
    ∧ remoteHost unknownAssoc = "unknown"
    ∧ (handle_p_data sampleReceiver sampleOracle ⟨PDataValueType.data, [3]⟩ unknownAssoc
        FS.empty).persistCalls = [(callingAet unknownAssoc, [3])]
    ∧ (handle_p_data sampleReceiver sampleOracle ⟨PDataValueType.data, [3]⟩ unknownAssoc
        FS.empty).forwardCalls
        = [⟨["media", "UNKNOWN", "t1"], callingAet unknownAssoc, remoteHost unknownAssoc⟩] :=
  ⟨⟨rfl, rfl, rfl⟩,
   (unknown_fallbacks_still_persist_and_forward sampleReceiver sampleOracle
      ⟨PDataValueType.data, [3]⟩ unknownAssoc FS.empty rfl).1 rfl,
   (unknown_fallbacks_still_persist_and_forward sampleReceiver sampleOracle
      ⟨PDataValueType.data, [3]⟩ unknownAssoc FS.empty rfl).2.1 rfl,
   (unknown_fallbacks_still_persist_and_forward sampleReceiver sampleOracle
      ⟨PDataValueType.data, [3]⟩ unknownAssoc FS.empty rfl).2.2.1,
   (unknown_fallbacks_still_persist_and_forward sampleReceiver sampleOracle
      ⟨PDataValueType.data, [3]⟩ unknownAssoc FS.empty rfl).2.2.2
     ["media", "UNKNOWN", "t1"] (by decide)⟩

/-- Claim C7 (counterexample): a 304 Not Modified response is outside the
success range, yet send returns Ok with no error after its single
request — error_for_status rejects only client-error and server-error
statuses, 400 through 599 — refuting the claim that every non-success
response yields a Rejected error. -/
theorem send_accepts_304_not_modified :
    (¬(200 ≤ 304 ∧ 304 ≤ 299))
    ∧ sampleForwarder.send (HttpOutcome.response 304) samplePayload
        = ([⟨sampleForwarder.endpoint, serializePayload samplePayload⟩], Except.ok ()) := by
  constructor
  · decide
  · decide
